import Mathlib

/-!
Verification of the EasyTSUtils WebSocket utilities: a shallow embedding of
the client connection manager (`EasyWS.mts`) and of the server session
registry (`WebSocketServer.mts`), followed by theorems settling the spec
claims about them. Machine integers (JS `number` timestamps and durations)
are modelled as `Int`; JS objects/`Map`s keyed by strings are modelled as
association lists with the usual key-unique operations.
-/

namespace EasyTS

/-! ### Association-list maps (JS object / `Map` semantics) -/

/-- A JS object / `Map` with string keys, as an association list. -/
abbrev AssocMap (α : Type) := List (String × α)

/-- `m[k]` / `Map.get`: the value at the first occurrence of key `k`. -/
def mapGet {α : Type} (m : AssocMap α) (k : String) : Option α :=
  match m with
  | [] => none
  | (k2, v) :: rest => if k2 = k then some v else mapGet rest k

/-- `m[k] = v` / `Map.set`: replace the first binding of `k`, or append one. -/
def mapSet {α : Type} (m : AssocMap α) (k : String) (v : α) : AssocMap α :=
  match m with
  | [] => [(k, v)]
  | (k2, v2) :: rest => if k2 = k then (k, v) :: rest else (k2, v2) :: mapSet rest k v

/-- `delete m[k]` / `Map.delete`: remove the bindings of `k`. -/
def mapDelete {α : Type} (m : AssocMap α) (k : String) : AssocMap α :=
  m.filter (fun p => p.1 ≠ k)

/-- `Object.keys(m)` in insertion order. -/
def mapKeys {α : Type} (m : AssocMap α) : List String :=
  m.map Prod.fst

/-- Number of bindings of key `k` (1 for every key of a genuine JS map). -/
def countKey {α : Type} (m : AssocMap α) (k : String) : Nat :=
  (m.filter (fun p => p.1 = k)).length

theorem mapGet_mapSet {α : Type} (m : AssocMap α) (k j : String) (v : α) :
    mapGet (mapSet m k v) j = if k = j then some v else mapGet m j := by
  induction m with
  | nil => by_cases h : k = j <;> simp [mapSet, mapGet, h]
  | cons p rest ih =>
    obtain ⟨k2, v2⟩ := p
    by_cases h2 : k2 = k
    · subst h2
      by_cases h : k2 = j <;> simp [mapSet, mapGet, h, ih]
    · by_cases h : k2 = j
      · subst h
        have : ¬ k = k2 := fun hk => h2 hk.symm
        simp [mapSet, mapGet, h2, this]
      · simp [mapSet, mapGet, h2, h, ih]

theorem mapGet_mapDelete {α : Type} (m : AssocMap α) (k j : String) :
    mapGet (mapDelete m k) j = if k = j then none else mapGet m j := by
  induction m with
  | nil => by_cases h : k = j <;> simp [mapDelete, mapGet, h]
  | cons p rest ih =>
    obtain ⟨k2, v2⟩ := p
    by_cases h2 : k2 = k
    · subst h2
      by_cases h : k2 = j
      · subst h
        simpa [mapDelete, mapGet] using ih
      · simp [mapDelete, mapGet, h] at ih ⊢
        simpa [mapDelete] using ih
    · by_cases h : k2 = j
      · subst h
        have : ¬ k = k2 := fun hk => h2 hk.symm
        simp [mapDelete, mapGet, h2, this]
      · simp [mapDelete, mapGet, h2, h] at ih ⊢
        simpa [mapDelete] using ih

theorem mapKeys_nil {α : Type} : mapKeys ([] : AssocMap α) = [] := rfl

theorem mapKeys_cons {α : Type} (p : String × α) (rest : AssocMap α) :
    mapKeys (p :: rest) = p.1 :: mapKeys rest := rfl

theorem countKey_nil {α : Type} (k : String) : countKey ([] : AssocMap α) k = 0 := rfl

theorem countKey_cons {α : Type} (p : String × α) (rest : AssocMap α) (k : String) :
    countKey (p :: rest) k = (if p.1 = k then 1 else 0) + countKey rest k := by
  by_cases h : p.1 = k <;> simp [countKey, List.filter_cons, h, Nat.add_comm]

theorem countKey_eq_zero {α : Type} (m : AssocMap α) (k : String)
    (h : k ∉ mapKeys m) : countKey m k = 0 := by
  induction m with
  | nil => rfl
  | cons p rest ih =>
    rw [mapKeys_cons, List.mem_cons] at h
    push_neg at h
    rw [countKey_cons, if_neg (fun hk => h.1 hk.symm), ih h.2]

theorem countKey_mapSet_self {α : Type} (m : AssocMap α) (k : String) (v : α)
    (h : (mapKeys m).Nodup) : countKey (mapSet m k v) k = 1 := by
  induction m with
  | nil => simp [mapSet, countKey_cons, countKey_nil]
  | cons p rest ih =>
    obtain ⟨k2, v2⟩ := p
    rw [mapKeys_cons, List.nodup_cons] at h
    by_cases h2 : k2 = k
    · subst h2
      have hz : countKey rest k2 = 0 := countKey_eq_zero rest k2 h.1
      simp [mapSet, countKey_cons, hz]
    · have := ih h.2
      simp [mapSet, h2, countKey_cons, this]

theorem mem_mapKeys_mapSet {α : Type} (m : AssocMap α) (k j : String) (v : α) :
    j ∈ mapKeys (mapSet m k v) ↔ j = k ∨ j ∈ mapKeys m := by
  induction m with
  | nil => simp [mapSet, mapKeys]
  | cons p rest ih =>
    obtain ⟨k2, v2⟩ := p
    by_cases h2 : k2 = k
    · subst h2
      simp [mapSet, mapKeys_cons, List.mem_cons]
    · simp only [mapSet, h2, if_false, mapKeys_cons, List.mem_cons, ih]
      try tauto

theorem mapKeys_mapSet_nodup {α : Type} (m : AssocMap α) (k : String) (v : α)
    (h : (mapKeys m).Nodup) : (mapKeys (mapSet m k v)).Nodup := by
  induction m with
  | nil => simp [mapSet, mapKeys]
  | cons p rest ih =>
    obtain ⟨k2, v2⟩ := p
    rw [mapKeys_cons, List.nodup_cons] at h
    by_cases h2 : k2 = k
    · subst h2
      rw [mapSet, if_pos rfl, mapKeys_cons, List.nodup_cons]
      exact ⟨h.1, h.2⟩
    · have hrest := ih h.2
      have hk2 : k2 ∉ mapKeys (mapSet rest k v) := by
        rw [mem_mapKeys_mapSet]
        rintro (hkk | hmem)
        · exact h2 hkk
        · exact h.1 hmem
      rw [mapSet, if_neg h2, mapKeys_cons, List.nodup_cons]
      exact ⟨hk2, hrest⟩

/-! ### Server model (`WebSocketServer.mts`) -/

/-- `WebSocket.readyState` values. -/
inductive ReadyState where
  | connecting
  | opened
  | closing
  | closed
deriving DecidableEq, Repr

/-- One registry entry: `{socket, subProtocols}`. The socket handle itself is
represented by its observable `readyState`. -/
structure ServerSession where
  readyState : ReadyState
  subProtocols : List String
deriving DecidableEq, Repr

/-- The server's `_sessions` registry. -/
structure ServerState where
  sessions : AssocMap ServerSession
deriving DecidableEq, Repr

/-- `_unreadyStates = [WebSocket.CONNECTING, WebSocket.CLOSING, WebSocket.CLOSED]`. -/
def unreadyStates : List ReadyState :=
  [.connecting, .closing, .closed]

/-- A `socket.send(message)` call observed on a session's socket. -/
structure SendCall where
  sessionId : String
  message : String
deriving DecidableEq, Repr

/-- A `socket.close(code, reason)` call observed on a session's socket. -/
structure CloseCall where
  sessionId : String
  code : Option Nat
  reason : Option String
deriving DecidableEq, Repr

/-- `sendMessage(message, toSessionId, withSubProtocol?)`: returns the boolean
result together with the list of `socket.send` calls it performs. -/
def sendMessage (s : ServerState) (message : String) (toSessionId : String)
    (withSubProtocol : Option String) : Bool × List SendCall :=
  match mapGet s.sessions toSessionId with
  | some session =>
    if !(unreadyStates.contains session.readyState)
        && (withSubProtocol == none || session.subProtocols.head? == withSubProtocol) then
      (true, [⟨toSessionId, message⟩])
    else
      (false, [])
  | none => (false, [])

/-- `sendMessageToAll(message, subProtocol?)`: iterates `Object.keys(this._sessions)`
and counts the successful `sendMessage` calls, accumulating the sends. -/
def sendMessageToAll (s : ServerState) (message : String) (subProtocol : Option String) :
    Nat × List SendCall :=
  (mapKeys s.sessions).foldl
    (fun acc sessionId =>
      let r := sendMessage s message sessionId subProtocol
      (acc.1 + (if r.1 then 1 else 0), acc.2 ++ r.2))
    (0, [])

/-- A thrown JS runtime error. -/
inductive JsError where
  | typeError
deriving DecidableEq, Repr

/-- `disconnectSession(sessionId, code?, reason?)`. The source reads
`const session = this._sessions[sessionId]` and then tests `if (session.socket)`:
when the session is absent, `session` is `undefined` and the property access
`session.socket` throws a `TypeError`; when the session is present, its
`socket` field is an object (always truthy), so the socket is closed, the
entry deleted, and `true` returned — the `return false` line is unreachable. -/
def disconnectSession (s : ServerState) (sessionId : String) (code : Option Nat)
    (reason : Option String) : Except JsError (ServerState × List CloseCall × Bool) :=
  match mapGet s.sessions sessionId with
  | none => .error .typeError
  | some _session =>
    .ok (⟨mapDelete s.sessions sessionId⟩, [⟨sessionId, code, reason⟩], true)

/-! ### Server registry event traces (claim C5) -/

/-- The notifications and calls that touch the registry, each carrying the
`sessionId` captured by the corresponding handler closure. -/
inductive ServerEv where
  | openEv (sessionId : String) (subProtocols : List String)
  | closeEv (sessionId : String)
  | errorEv (sessionId : String)
  | disconnectCall (sessionId : String)
deriving DecidableEq, Repr

/-- The registry effect of one event: `socket.onopen` registers the session,
`socket.onclose` deletes it, `socket.onerror` only reports (no registry
change), and `disconnectSession` deletes it when present (when absent it
throws before reaching the delete, leaving the registry unchanged). -/
def serverStep (s : ServerState) (e : ServerEv) : ServerState :=
  match e with
  | .openEv id protos => ⟨mapSet s.sessions id ⟨.opened, protos⟩⟩
  | .closeEv id => ⟨mapDelete s.sessions id⟩
  | .errorEv _ => s
  | .disconnectCall id =>
    match disconnectSession s id none none with
    | .ok (s2, _, _) => s2
    | .error _ => s

/-- Run a trace of registry events from a state. -/
def runServer (s : ServerState) (es : List ServerEv) : ServerState :=
  es.foldl serverStep s

/-- Membership as the spec describes the code: a session is live after a trace
iff it was opened and neither a close notification nor an explicit disconnect
removed it since (an error notification does not remove it). -/
def liveStep (id : String) (b : Bool) (e : ServerEv) : Bool :=
  match e with
  | .openEv j _ => if j = id then true else b
  | .closeEv j => if j = id then false else b
  | .errorEv _ => b
  | .disconnectCall j => if j = id then false else b

def live (id : String) (es : List ServerEv) : Bool :=
  es.foldl (liveStep id) false

/-- Membership as claim C5 words it: the error notification also removes the
session from the registry. -/
def liveClaimC5Step (id : String) (b : Bool) (e : ServerEv) : Bool :=
  match e with
  | .openEv j _ => if j = id then true else b
  | .closeEv j => if j = id then false else b
  | .errorEv j => if j = id then false else b
  | .disconnectCall j => if j = id then false else b

def liveClaimC5 (id : String) (es : List ServerEv) : Bool :=
  es.foldl (liveClaimC5Step id) false

/-- Success condition of `sendMessage` as claim C4 words it: the session
exists, its readyState is not connecting, closing, or closed, and when a
subprotocol is supplied it equals the first negotiated subprotocol. -/
def claimSendOkC4 (s : ServerState) (id : String) (sp : Option String) : Bool :=
  match mapGet s.sessions id with
  | none => false
  | some session =>
    (!(session.readyState == ReadyState.connecting)
      && !(session.readyState == ReadyState.closing)
      && !(session.readyState == ReadyState.closed))
    && (match sp with
        | none => true
        | some p => session.subProtocols.head? == some p)

theorem sendMessage_fst (s : ServerState) (m id : String) (sp : Option String) :
    (sendMessage s m id sp).1 = claimSendOkC4 s id sp := by
  unfold sendMessage claimSendOkC4
  cases mapGet s.sessions id with
  | none => rfl
  | some session =>
    obtain ⟨rs, protos⟩ := session
    cases sp with
    | none => cases rs <;> simp [unreadyStates]
    | some p =>
      cases rs <;> (by_cases h : protos.head? = some p <;> simp [unreadyStates, h])

theorem sendMessage_snd (s : ServerState) (m id : String) (sp : Option String) :
    (sendMessage s m id sp).2 = (if (sendMessage s m id sp).1 then [⟨id, m⟩] else []) := by
  unfold sendMessage
  cases mapGet s.sessions id with
  | none => rfl
  | some session => split <;> split <;> first | rfl | simp_all

theorem sendAll_count (s : ServerState) (m : String) (sp : Option String)
    (ids : List String) (acc : Nat × List SendCall) :
    (ids.foldl
      (fun acc sessionId =>
        let r := sendMessage s m sessionId sp
        (acc.1 + (if r.1 then 1 else 0), acc.2 ++ r.2)) acc).1
      = acc.1 + (ids.filter (fun j => (sendMessage s m j sp).1)).length := by
  induction ids generalizing acc with
  | nil => simp
  | cons j rest ih =>
    rw [List.foldl_cons, ih, List.filter_cons]
    by_cases h : (sendMessage s m j sp).1 = true <;> (simp [h]; try omega)

/-- The example registry of claim C4: sessions {A: open, B: closing, C: open}. -/
def c4Example : ServerState :=
  ⟨[("A", ⟨.opened, []⟩), ("B", ⟨.closing, []⟩), ("C", ⟨.opened, []⟩)]⟩

/-- C4: `sendMessage(payload, sessionId, subProtocol?)` returns true iff the
session exists, its socket's readyState is not connecting, closing, or closed,
and (when supplied) the subprotocol equals the first negotiated one; it sends
the payload exactly when it returns true; `sendMessageToAll` returns the
number of sessions for which `sendMessage` returned true, and on the registry
{A: open, B: closing, C: open} it returns 2 sending only to A and C. -/
theorem C4_sendMessage_correct (s : ServerState) (m id : String) (sp : Option String) :
    (sendMessage s m id sp).1 = claimSendOkC4 s id sp ∧
    (sendMessage s m id sp).2 = (if (sendMessage s m id sp).1 then [⟨id, m⟩] else []) ∧
    (sendMessageToAll s m sp).1
      = ((mapKeys s.sessions).filter (fun j => (sendMessage s m j sp).1)).length ∧
    sendMessageToAll c4Example "p" none = (2, [⟨"A", "p"⟩, ⟨"C", "p"⟩]) := by
  refine ⟨sendMessage_fst s m id sp, sendMessage_snd s m id sp, ?_, by decide⟩
  rw [sendMessageToAll, sendAll_count]
  simp

/-- The two evaluation points for claim C1: a registry without the requested
session, and one with it. -/
def c1Missing : ServerState := ⟨[]⟩

def c1Present : ServerState := ⟨[("A", ⟨.opened, ["chat"]⟩)]⟩

/-- C1 (code bug): on a sessionId absent from the registry,
`disconnectSession` does not return false — it throws a `TypeError`
(`session.socket` with `session === undefined`), contradicting the claim and
the function's own doc comment; on a present sessionId it closes the socket,
removes the entry, and returns true as claimed. -/
theorem C1_disconnect_missing_throws :
    disconnectSession c1Missing "missing" none none = .error .typeError ∧
    disconnectSession c1Present "A" (some 1000) (some "bye")
      = .ok (⟨[]⟩, [⟨"A", some 1000, some "bye"⟩], true) := by
  constructor <;> rfl

/-- The trace for the C5 counterexample: a client connects (open notification)
and then its socket reports an error. -/
def c5Trace : List ServerEv := [.openEv "A" [], .errorEv "A"]

/-- C5 counterexample: after an open followed by an error notification the
session is still in the registry, while the claim (error notification removes
the entry) predicts it is gone. -/
theorem C5_counterexample :
    (mapGet (runServer ⟨[]⟩ c5Trace).sessions "A").isSome = true ∧
    liveClaimC5 "A" c5Trace = false := by
  constructor <;> decide

theorem runServer_mem (es : List ServerEv) (s : ServerState) (id : String) :
    (mapGet (runServer s es).sessions id).isSome
      = es.foldl (liveStep id) ((mapGet s.sessions id).isSome) := by
  induction es generalizing s with
  | nil => rfl
  | cons e rest ih =>
    have hstep : (mapGet (serverStep s e).sessions id).isSome
        = liveStep id ((mapGet s.sessions id).isSome) e := by
      cases e with
      | openEv j protos =>
        by_cases h : j = id <;> simp [serverStep, liveStep, mapGet_mapSet, h]
      | closeEv j =>
        by_cases h : j = id <;> simp [serverStep, liveStep, mapGet_mapDelete, h]
      | errorEv j => simp [serverStep, liveStep]
      | disconnectCall j =>
        by_cases h : j = id
        · subst h
          cases hg : mapGet s.sessions j with
          | none => simp [serverStep, disconnectSession, hg, liveStep]
          | some sess =>
            simp [serverStep, disconnectSession, hg, liveStep, mapGet_mapDelete]
        · cases hg : mapGet s.sessions j with
          | none => simp [serverStep, disconnectSession, hg, liveStep, h]
          | some sess =>
            simp [serverStep, disconnectSession, hg, liveStep, h, mapGet_mapDelete]
    rw [runServer, List.foldl_cons, ← runServer, ih, hstep, List.foldl_cons]

/-- C5 (amended): over every trace of registry events from the empty registry,
a session entry exists iff an open notification registered it and no close
notification nor explicit `disconnectSession` removed it since; the error
notification leaves the registry unchanged (removal then happens at the close
notification that follows the error). -/
theorem C5_registry_membership_amended (es : List ServerEv) (id : String) :
    (mapGet (runServer ⟨[]⟩ es).sessions id).isSome = live id es := by
  rw [live, runServer_mem]
  rfl

/-! ### Client model (`EasyWS.mts`) -/

/-- One `_messageQueue` entry: `new QueueItem(Date.now(), body)`. -/
structure QueueItem where
  time : Int
  message : String
deriving DecidableEq, Repr

/-- A `send(body)` argument: either already a string, or a non-string value
carried together with its `JSON.stringify` serialization. -/
inductive WSBody where
  | str (s : String)
  | jsonVal (serialized : String)
deriving DecidableEq, Repr

/-- `if (typeof body !== 'string') body = JSON.stringify(body)`. -/
def serializeBody : WSBody → String
  | .str s => s
  | .jsonVal j => j

/-- The `IEasyWSOptions` fields the claims depend on. `messageQueueing` is an
optional boolean in the source; `undefined` is falsy in the guard
`if (this._options.messageQueueing)`, so it is modelled as `Bool` with
`false` for absent. -/
structure ClientOptions where
  reconnectIntervalSeconds : Option Int
  messageQueueing : Bool
  messageMaxQueueSeconds : Option Int
deriving DecidableEq, Repr

/-- The mutable fields of `EasyWS`. The current socket is identified by a
number (`nextSocketId` generates fresh ones); `intervalActive` records whether
the `setInterval` reconnect timer set by `startConnectLoop` is currently live
(`clearInterval` kills it). -/
structure ClientState where
  socket : Option Nat
  connected : Bool
  messageQueue : List QueueItem
  intervalActive : Bool
  nextSocketId : Nat
deriving DecidableEq, Repr

/-- `send(body)`: returns the new state and the texts passed to
`this._socket?.send`. The function is total — no branch throws. -/
def send (opts : ClientOptions) (s : ClientState) (body : WSBody) (now : Int) :
    ClientState × List String :=
  let text := serializeBody body
  if s.connected then
    (s, match s.socket with
        | some _ => [text]
        | none => [])
  else if opts.messageQueueing then
    ({ s with messageQueue := s.messageQueue ++ [⟨now, text⟩] }, [])
  else
    (s, [])

/-- The queue-flush loop in the `onOpen` handler: for each entry in order,
send it unless a nonzero `maxTime` is set and the entry is older than it
(`maxTime == 0 || (now - item.time) <= maxTime`). -/
def flushSends (maxTime now : Int) : List QueueItem → List String
  | [] => []
  | item :: rest =>
    if maxTime = 0 || now - item.time ≤ maxTime then
      item.message :: flushSends maxTime now rest
    else
      flushSends maxTime now rest

/-- The `onOpen` notification handler: set `_connected`, stop the reconnect
loop, flush the queue (dropping over-age entries), then clear the queue. -/
def onOpenFlush (opts : ClientOptions) (s : ClientState) (now : Int) :
    ClientState × List String :=
  let s1 := { s with connected := true, intervalActive := false }
  let maxTime := (opts.messageMaxQueueSeconds.getD 0) * 1000
  ({ s1 with messageQueue := [] }, flushSends maxTime now s1.messageQueue)

/-- `this._socket?.close()` followed by `new WebSocket(...)` in `connect()`:
returns the new state and the socket ids a close was requested on. -/
def connect (s : ClientState) : ClientState × List Nat :=
  let closeReqs := match s.socket with
    | some sockId => [sockId]
    | none => []
  ({ s with socket := some s.nextSocketId, nextSocketId := s.nextSocketId + 1 }, closeReqs)

/-- `reconnect()`: `this._socket?.close(); this.connect()`. -/
def reconnect (s : ClientState) : ClientState × List Nat :=
  let closeReqs := match s.socket with
    | some sockId => [sockId]
    | none => []
  let r := connect s
  (r.1, closeReqs ++ r.2)

/-- `stopConnectLoop()`: `clearInterval(this._reconnectIntervalHandle)`. -/
def stopConnectLoop (s : ClientState) : ClientState :=
  { s with intervalActive := false }

/-- `startConnectLoop(immediate)`: stop the old interval, start a new one, and
connect immediately when asked to. -/
def startConnectLoop (s : ClientState) (immediate : Bool) : ClientState × List Nat :=
  let s1 := { stopConnectLoop s with intervalActive := true }
  if immediate then connect s1 else (s1, [])

/-- The socket notifications and public calls that drive the connection
manager's state. -/
inductive ClientEv where
  | openEv
  | closeEv
  | errorEv
  | messageEv
  | reconnectCall
  | disconnectCall
deriving DecidableEq, Repr

/-- State effect of one notification or call, mirroring the handlers in
`connect()`: `onOpen` sets `_connected`, stops the loop and clears the queue;
`onClose` clears `_connected` and restarts the loop (not immediate);
`onError` requests a socket close and restarts the loop, leaving `_connected`
untouched; `onMessage` and `disconnect()` change no tracked state;
`reconnect()` closes and reconnects. -/
def clientStep (s : ClientState) (e : ClientEv) : ClientState :=
  match e with
  | .openEv => { s with connected := true, intervalActive := false, messageQueue := [] }
  | .closeEv => (startConnectLoop { s with connected := false } false).1
  | .errorEv => (startConnectLoop s false).1
  | .messageEv => s
  | .reconnectCall => (reconnect s).1
  | .disconnectCall => s

/-- Run a trace of client events. -/
def runClient (s : ClientState) (es : List ClientEv) : ClientState :=
  es.foldl clientStep s

/-- `isConnected()`: `return this._connected`. -/
def isConnected (s : ClientState) : Bool :=
  s.connected

/-- C7: `send(payload)` while not connected never raises (the embedded
function is total): with queueing enabled the serialized payload is appended
to the queue stamped with the current time and nothing reaches the socket;
with queueing disabled the state is untouched and nothing reaches the socket. -/
theorem C7_send_disconnected (opts : ClientOptions) (s : ClientState) (body : WSBody)
    (now : Int) (h : s.connected = false) :
    (send opts s body now).2 = [] ∧
    (send opts s body now).1 =
      (if opts.messageQueueing then
        { s with messageQueue := s.messageQueue ++ [⟨now, serializeBody body⟩] }
      else s) := by
  unfold send
  by_cases hq : opts.messageQueueing <;> simp [h, hq]

/-- Witness for C7 at a concrete disconnected state with queueing enabled. -/
theorem C7_send_disconnected_witness :
    (⟨some 0, false, [], true, 1⟩ : ClientState).connected = false ∧
    ((send ⟨some 30, true, some 10⟩ ⟨some 0, false, [], true, 1⟩ (.str "hi") 500).2 = [] ∧
     (send ⟨some 30, true, some 10⟩ ⟨some 0, false, [], true, 1⟩ (.str "hi") 500).1 =
       (if (⟨some 30, true, some 10⟩ : ClientOptions).messageQueueing then
         { (⟨some 0, false, [], true, 1⟩ : ClientState) with
             messageQueue := [] ++ [⟨500, serializeBody (.str "hi")⟩] }
       else ⟨some 0, false, [], true, 1⟩)) :=
  ⟨rfl, C7_send_disconnected ⟨some 30, true, some 10⟩ ⟨some 0, false, [], true, 1⟩
    (.str "hi") 500 rfl⟩

/-- Drop condition as claim C2 words it: dropped iff a maximum queue age
greater than 0 is configured and `now − enqueuedAtMillis` strictly exceeds
that maximum (in milliseconds). -/
def claimDropsC2 (maxQueueSeconds : Option Int) (now time : Int) : Bool :=
  match maxQueueSeconds with
  | some m => decide (0 < m) && decide (m * 1000 < now - time)
  | none => false

/-- A client configured with a maximum queue age of −1 seconds. -/
def c2Opts : ClientOptions := ⟨none, true, some (-1)⟩

/-- A disconnected client holding one queued entry of age 0 at flush time. -/
def c2State : ClientState := ⟨some 0, false, [⟨0, "m"⟩], true, 1⟩

/-- C2 counterexample: with a configured maximum queue age of −1 the flush
sends nothing, while the claim (entries are dropped only when a maximum
greater than 0 is configured) predicts the age-0 entry is sent. -/
theorem C2_counterexample :
    (onOpenFlush c2Opts c2State 0).2 = [] ∧
    ((c2State.messageQueue.filter
        (fun i => !claimDropsC2 c2Opts.messageMaxQueueSeconds 0 i.time)).map
      (fun i => i.message)) = ["m"] := by
  constructor <;> rfl

/-- Amended drop condition: dropped iff the configured maximum queue age is
nonzero (not merely greater than 0) and `now − enqueuedAtMillis` strictly
exceeds 1000 times it. -/
def dropsAmendedC2 (maxQueueSeconds : Option Int) (now time : Int) : Bool :=
  decide (maxQueueSeconds.getD 0 ≠ 0)
    && decide ((maxQueueSeconds.getD 0) * 1000 < now - time)

theorem flushSends_eq_filter (mt now : Int) (q : List QueueItem) :
    flushSends mt now q
      = (q.filter (fun i => decide (mt = 0) || decide (now - i.time ≤ mt))).map
          (fun i => i.message) := by
  induction q with
  | nil => rfl
  | cons item rest ih =>
    rw [flushSends, List.filter_cons]
    by_cases h : (decide (mt = 0) || decide (now - item.time ≤ mt)) = true
    · rw [if_pos h, if_pos h, List.map_cons, ih]
    · rw [if_neg h, if_neg h, ih]

theorem keep_eq_not_drop (mo : Option Int) (now t : Int) :
    (decide ((mo.getD 0) * 1000 = 0) || decide (now - t ≤ (mo.getD 0) * 1000))
      = !dropsAmendedC2 mo now t := by
  unfold dropsAmendedC2
  generalize mo.getD 0 = m
  rw [Bool.eq_iff_iff]
  simp only [Bool.or_eq_true, Bool.not_eq_true', Bool.and_eq_false_iff, decide_eq_true_eq,
    decide_eq_false_iff_not]
  omega

/-- C2 (amended): the flush on the open notification sends, in enqueue order,
exactly the entries not dropped, where an entry is dropped iff the configured
maximum queue age is nonzero and `now − enqueuedAtMillis` strictly exceeds
1000 times it (so a positive maximum behaves as the claim says, while a
negative maximum drops every entry of nonnegative age); the queue is empty
after the single pass. -/
theorem C2_flush_amended (opts : ClientOptions) (s : ClientState) (now : Int) :
    (onOpenFlush opts s now).2
      = (s.messageQueue.filter
          (fun i => !dropsAmendedC2 opts.messageMaxQueueSeconds now i.time)).map
        (fun i => i.message) ∧
    (onOpenFlush opts s now).1.messageQueue = [] := by
  refine ⟨?_, rfl⟩
  show flushSends ((opts.messageMaxQueueSeconds.getD 0) * 1000) now s.messageQueue = _
  rw [flushSends_eq_filter]
  congr 1
  apply List.filter_congr
  intro i _
  exact keep_eq_not_drop opts.messageMaxQueueSeconds now i.time

/-- A client state with a pending retry interval timer. -/
def c6State : ClientState := ⟨some 0, false, [], true, 1⟩

/-- C6 counterexample: from a state whose retry interval timer is pending,
`reconnect()` leaves that timer active, contradicting the claim that it
cancels the pending retry timer. -/
theorem C6_counterexample :
    c6State.intervalActive = true ∧ (reconnect c6State).1.intervalActive = true := by
  constructor <;> rfl

/-- C6 (amended): `reconnect()` closes the current socket (if any) and
immediately creates a fresh connection, but does not cancel a pending retry
interval timer — the timer's status is unchanged (only the open notification
stops the loop), so attempts from the superseded timer can still occur. -/
theorem C6_reconnect_amended (s : ClientState) :
    (reconnect s).1.intervalActive = s.intervalActive ∧
    (reconnect s).1.socket = some s.nextSocketId ∧
    (reconnect s).1.connected = s.connected ∧
    (reconnect s).1.messageQueue = s.messageQueue ∧
    (reconnect s).2 = (match s.socket with
      | some sockId => [sockId, sockId]
      | none => []) := by
  unfold reconnect connect
  cases s.socket <;> simp

/-- `isConnected` as claim C9 words it: true iff the most recent open
notification has occurred and no close or error notification has fired since. -/
def claimConnC9Step (b : Bool) (e : ClientEv) : Bool :=
  match e with
  | .openEv => true
  | .closeEv => false
  | .errorEv => false
  | _ => b

/-- `isConnected` as the code computes it over a trace: set by the open
notification, reset only by the close notification. -/
def connAmendedStep (b : Bool) (e : ClientEv) : Bool :=
  match e with
  | .openEv => true
  | .closeEv => false
  | _ => b

/-- A freshly connecting client (one socket created, retry loop pending). -/
def c9Init : ClientState := ⟨some 0, false, [], true, 1⟩

/-- Open notification followed immediately by an error notification. -/
def c9Trace : List ClientEv := [.openEv, .errorEv]

/-- C9 counterexample: immediately after an error notification (and before
any close notification) `isConnected()` still returns true, while the claim
predicts false. -/
theorem C9_counterexample :
    isConnected (runClient c9Init c9Trace) = true ∧
    c9Trace.foldl claimConnC9Step false = false := by
  constructor <;> rfl

/-- C9 (amended): in every reachable state, `isConnected()` returns true iff
the most recent open notification has occurred and no close notification has
fired since; an error notification by itself does not reset it — the reset
happens at the close notification that follows the error handler's
`socket.close()` request. -/
theorem C9_isConnected_amended (s : ClientState) (es : List ClientEv) :
    isConnected (runClient s es) = es.foldl connAmendedStep s.connected := by
  induction es generalizing s with
  | nil => rfl
  | cons e rest ih =>
    rw [runClient, List.foldl_cons, ← runClient, ih, List.foldl_cons]
    congr 1
    cases e <;> rfl

/-! ### Pending-call registry (`registerResolver` / `resolvePromise`) -/

/-- A pending `setTimeout` scheduled by `registerResolver`: its fire time and
the nonce its callback captured. -/
structure TimerRec where
  fireAt : Int
  nonce : String
deriving DecidableEq, Repr

/-- `_resolverQueue` (nonce → resolver function, the function represented by
an identity) together with the pending timeout timers. -/
structure PendingState where
  resolverQueue : AssocMap Nat
  timers : List TimerRec
deriving DecidableEq, Repr

/-- One continuation invocation: the resolver's identity and the value it was
called with (`none` models `undefined`, the value domain is modelled by
`Int`). -/
structure Invocation where
  resolver : Nat
  result : Option Int
deriving DecidableEq, Repr

/-- `registerResolver(nonce, resolver, timeoutMs)`: store the resolver under
the nonce and schedule a timeout timer; no continuation is invoked. -/
def registerResolver (s : PendingState) (nonce : String) (resolver : Nat)
    (timeoutMs now : Int) : PendingState × List Invocation :=
  (⟨mapSet s.resolverQueue nonce resolver, s.timers ++ [⟨now + timeoutMs, nonce⟩]⟩, [])

/-- The `setTimeout` callback body, run when timer `t` fires (a fired one-shot
timer leaves the pending set): it resolves whatever resolver is registered for
its captured nonce at fire time with `undefined` and deletes the entry; when
none is registered it does nothing. -/
def fireTimeout (s : PendingState) (t : TimerRec) : PendingState × List Invocation :=
  let remaining := s.timers.erase t
  match mapGet s.resolverQueue t.nonce with
  | some r => (⟨mapDelete s.resolverQueue t.nonce, remaining⟩, [⟨r, none⟩])
  | none => (⟨s.resolverQueue, remaining⟩, [])

/-- `resolvePromise(nonce, result)`: fire and delete the registered resolver,
or do nothing but log a warning (the returned `Bool`) when none exists. -/
def resolvePromise (s : PendingState) (nonce : String) (result : Int) :
    PendingState × List Invocation × Bool :=
  match mapGet s.resolverQueue nonce with
  | some r => (⟨mapDelete s.resolverQueue nonce, s.timers⟩, [⟨r, some result⟩], false)
  | none => (s, [], true)

/-- C3: for a single registration (a state whose queue holds resolver `r`
under nonce `n`), explicit resolution and the timeout are mutually exclusive:
whichever runs first invokes the continuation (with the value, resp. with an
absent result) and removes the entry, and the other then invokes nothing and
changes no queue state; resolving a nonce with no entry (timed out or never
registered, e.g. on the empty registry) changes no state and only warns. -/
theorem C3_pending_call_exclusive (q : AssocMap Nat) (ts : List TimerRec)
    (n : String) (r : Nat) (v t : Int) :
    (resolvePromise ⟨mapSet q n r, ts⟩ n v).2.1 = [⟨r, some v⟩] ∧
    (resolvePromise ⟨mapSet q n r, ts⟩ n v).2.2 = false ∧
    mapGet (resolvePromise ⟨mapSet q n r, ts⟩ n v).1.resolverQueue n = none ∧
    (fireTimeout (resolvePromise ⟨mapSet q n r, ts⟩ n v).1 ⟨t, n⟩).2 = [] ∧
    (fireTimeout (resolvePromise ⟨mapSet q n r, ts⟩ n v).1 ⟨t, n⟩).1.resolverQueue
      = (resolvePromise ⟨mapSet q n r, ts⟩ n v).1.resolverQueue ∧
    (fireTimeout ⟨mapSet q n r, ts⟩ ⟨t, n⟩).2 = [⟨r, none⟩] ∧
    mapGet (fireTimeout ⟨mapSet q n r, ts⟩ ⟨t, n⟩).1.resolverQueue n = none ∧
    resolvePromise (fireTimeout ⟨mapSet q n r, ts⟩ ⟨t, n⟩).1 n v
      = ((fireTimeout ⟨mapSet q n r, ts⟩ ⟨t, n⟩).1, [], true) ∧
    resolvePromise ⟨[], []⟩ n v = (⟨[], []⟩, [], true) := by
  have hget : mapGet (mapSet q n r) n = some r := by
    rw [mapGet_mapSet]
    simp
  have hdel : mapGet (mapDelete (mapSet q n r) n) n = none := by
    rw [mapGet_mapDelete]
    simp
  refine ⟨?_, ?_, ?_, ?_, ?_, ?_, ?_, ?_, ?_⟩ <;>
    simp [resolvePromise, fireTimeout, hget, hdel, mapGet]

/-- C8: registering a second resolver for a nonce that already has one
silently replaces it — afterwards exactly one entry exists for the nonce,
holding the second resolver, and neither registration invokes any
continuation. -/
theorem C8_register_replaces (s : PendingState) (n : String) (r1 r2 : Nat)
    (t1 t2 now1 now2 : Int) (hnd : (mapKeys s.resolverQueue).Nodup) :
    (registerResolver s n r1 t1 now1).2 = [] ∧
    (registerResolver (registerResolver s n r1 t1 now1).1 n r2 t2 now2).2 = [] ∧
    mapGet (registerResolver (registerResolver s n r1 t1 now1).1 n r2 t2 now2).1.resolverQueue n
      = some r2 ∧
    countKey (registerResolver (registerResolver s n r1 t1 now1).1 n r2 t2 now2).1.resolverQueue n
      = 1 := by
  refine ⟨rfl, rfl, ?_, ?_⟩
  · show mapGet (mapSet (mapSet s.resolverQueue n r1) n r2) n = some r2
    rw [mapGet_mapSet]
    simp
  · show countKey (mapSet (mapSet s.resolverQueue n r1) n r2) n = 1
    exact countKey_mapSet_self _ _ _ (mapKeys_mapSet_nodup _ _ _ hnd)

/-- Witness for C8 at a concrete one-entry registry. -/
theorem C8_register_replaces_witness :
    (mapKeys (⟨[("b", 9)], []⟩ : PendingState).resolverQueue).Nodup ∧
    ((registerResolver ⟨[("b", 9)], []⟩ "b" 1 100 0).2 = [] ∧
     (registerResolver (registerResolver ⟨[("b", 9)], []⟩ "b" 1 100 0).1 "b" 2 200 50).2 = [] ∧
     mapGet (registerResolver (registerResolver ⟨[("b", 9)], []⟩ "b" 1 100 0).1 "b" 2 200 50).1.resolverQueue "b"
       = some 2 ∧
     countKey (registerResolver (registerResolver ⟨[("b", 9)], []⟩ "b" 1 100 0).1 "b" 2 200 50).1.resolverQueue "b"
       = 1) :=
  ⟨by decide, C8_register_replaces ⟨[("b", 9)], []⟩ "b" 1 2 100 200 0 50 (by decide)⟩

/-- State after registering resolver 1 for nonce "n" with a 100 ms timeout at
time 0: its timer will fire at 100. -/
def c10AfterFirst : PendingState := (registerResolver ⟨[], []⟩ "n" 1 100 0).1

/-- State after then registering resolver 2 for the same nonce with a 500 ms
timeout at time 50: its own timer would fire at 550. -/
def c10AfterSecond : PendingState := (registerResolver c10AfterFirst "n" 2 500 50).1

/-- C10: the first registration's timer is still pending after the second
registration; when it fires at time 100 — before 550, the second
registration's own deadline — it invokes the second registration's
continuation with an absent result and deletes its entry. -/
theorem C10_stale_timer_fires_replacement :
    c10AfterSecond.resolverQueue = [("n", 2)] ∧
    c10AfterSecond.timers = [⟨100, "n"⟩, ⟨550, "n"⟩] ∧
    (fireTimeout c10AfterSecond ⟨100, "n"⟩).2 = [⟨2, none⟩] ∧
    mapGet (fireTimeout c10AfterSecond ⟨100, "n"⟩).1.resolverQueue "n" = none ∧
    ((100 : Int) < 550) := by
  refine ⟨rfl, rfl, ?_, ?_, by decide⟩ <;> decide

end EasyTS
